import Mathlib

/-!
Shallow embedding of `src/db/sysdb_sudo.c` (SSSD sudo rule cache layer).

The C file manipulates generic attribute bags (`struct sysdb_attrs`,
`struct ldb_message`): ordered sequences of named multi-valued string
attributes.  Fallible C functions returning `errno_t` and writing through
out-parameters are embedded as functions returning `Except Nat _` or
explicit result structures; opaque collaborators (the ldb store, libc)
are passed in as explicit oracle parameters.
-/

set_option autoImplicit false

deriving instance DecidableEq for Except

namespace SysdbSudo

/-- errno value `0`, success. -/
def EOK : Nat := 0

/-- errno value `ENOENT`. -/
def ENOENT : Nat := 2

/-- errno value `ENOMEM`. -/
def ENOMEM : Nat := 12

/-- errno value `EINVAL`. -/
def EINVAL : Nat := 22

/-- Attribute name `sudoNotBefore` (`SYSDB_SUDO_CACHE_AT_NOTBEFORE`). -/
def SYSDB_SUDO_CACHE_AT_NOTBEFORE : String := "sudoNotBefore"

/-- Attribute name `sudoNotAfter` (`SYSDB_SUDO_CACHE_AT_NOTAFTER`). -/
def SYSDB_SUDO_CACHE_AT_NOTAFTER : String := "sudoNotAfter"

/-- Attribute name `sudoUser` (`SYSDB_SUDO_CACHE_AT_USER`). -/
def SYSDB_SUDO_CACHE_AT_USER : String := "sudoUser"

/-- Object class marker value `sudoRule` (`SYSDB_SUDO_CACHE_AT_OC`). -/
def SYSDB_SUDO_CACHE_AT_OC : String := "sudoRule"

/-- Attribute name `objectClass` (`SYSDB_OBJECTCLASS`). -/
def SYSDB_OBJECTCLASS : String := "objectClass"

/-- Attribute name `name` (`SYSDB_NAME`). -/
def SYSDB_NAME : String := "name"

/-- Attribute name `uidNumber` (`SYSDB_UIDNUM`). -/
def SYSDB_UIDNUM : String := "uidNumber"

/-- Attribute name `memberOf` (`SYSDB_MEMBEROF`). -/
def SYSDB_MEMBEROF : String := "memberOf"

/-- `struct sysdb_attrs`: an ordered sequence of named multi-valued string
attributes (element order and value order are significant). -/
structure SysdbAttrs where
  elements : List (String × List String)
deriving DecidableEq, Repr

/-- `sysdb_attrs_get_string_array` (declared in `db/sysdb.h`): returns the
value list of the first element whose name matches, `ENOENT` when no such
element exists.  Modelled from the spec: absence of an attribute is a
distinguished `ENOENT` outcome, which `sysdb_sudo_check_time` maps back to
"unrestricted bound". -/
def sysdb_attrs_get_string_array (attrs : SysdbAttrs) (name : String) :
    Except Nat (List String) :=
  match attrs.elements.find? (fun p => p.1 == name) with
  | none => .error ENOENT
  | some p => .ok p.2

/-- Numeric value of a list of decimal digit characters. -/
def digitsVal (cs : List Char) : Nat :=
  cs.foldl (fun a c => a * 10 + (c.toNat - 48)) 0

/-- Leap years in the interval `[1, n]` of the proleptic Gregorian calendar. -/
def leapCount (n : Nat) : Nat :=
  n / 4 - n / 100 + n / 400

/-- Whether year `y` is a leap year. -/
def isLeap (y : Nat) : Bool :=
  (y % 4 == 0 && y % 100 != 0) || y % 400 == 0

/-- Days from 1970-01-01 to the first day of year `y` (for `y ≥ 1970`). -/
def daysBeforeYear (y : Nat) : Nat :=
  (y - 1970) * 365 + (leapCount (y - 1) - leapCount 1969)

/-- Cumulative day counts at the start of each month in a non-leap year. -/
def monthDays : List Nat := [0, 31, 59, 90, 120, 151, 181, 212, 243, 273, 304, 334]

/-- Days from the first day of year `y` to the first day of month `m`. -/
def daysBeforeMonth (y m : Nat) : Nat :=
  monthDays.getD (m - 1) 0 + (if 2 < m ∧ isLeap y then 1 else 0)

/-- Seconds since the Unix epoch of the given UTC calendar fields. -/
def epochSecs (y mo d h mi s : Nat) : Nat :=
  ((daysBeforeYear y + daysBeforeMonth y mo + (d - 1)) * 24 + h) * 60 * 60
    + mi * 60 + s

/-- Modelled from the spec: a timestamp value has the form `yyyymmddHHMMSS`
plus a literal `Z` and denotes a UTC instant.  The C code parses with
`strptime(value, "%Y%m%d%H%M%SZ", &tm)` (rejecting trailing garbage) and
converts with `mktime`; both live in libc, outside this repository, so they
are modelled as one function from the spec's description of the format,
yielding seconds since the Unix epoch (restricted to years ≥ 1970, where the
claims live).  `none` is a parse failure. -/
def sudoTimeParse (s : String) : Option Int :=
  let cs := s.data
  if cs.length = 15 ∧ (cs.take 14).all (fun c => c.isDigit) ∧ cs.drop 14 = ['Z'] then
    let y := digitsVal (cs.take 4)
    let mo := digitsVal ((cs.drop 4).take 2)
    let d := digitsVal ((cs.drop 6).take 2)
    let h := digitsVal ((cs.drop 8).take 2)
    let mi := digitsVal ((cs.drop 10).take 2)
    let sec := digitsVal ((cs.drop 12).take 2)
    if 1970 ≤ y ∧ 1 ≤ mo ∧ mo ≤ 12 ∧ 1 ≤ d ∧ d ≤ 31 ∧ h ≤ 23 ∧ mi ≤ 59 ∧ sec ≤ 61 then
      some (Int.ofNat (epochSecs y mo d h mi sec))
    else none
  else none

/-- The `sudoNotAfter` half of `sysdb_sudo_check_time` (lines 83–107 plus the
`done:` handler): fetch the value list; a missing attribute (`ENOENT`) becomes
"active" via the `done:` handler; an empty value list falls through to
`*result = true`; otherwise the last value in attribute order is parsed
(`values[i - 1]` after scanning for the terminator) and the rule is inactive
when `now > converted`. -/
def sysdb_sudo_check_notafter (rule : SysdbAttrs) (now : Int) : Except Nat Bool :=
  match sysdb_attrs_get_string_array rule SYSDB_SUDO_CACHE_AT_NOTAFTER with
  | .error e => if e = ENOENT then .ok true else .error e
  | .ok values =>
    match values.getLast? with
    | none => .ok true
    | some vlast =>
      match sudoTimeParse vlast with
      | none => .error EINVAL
      | some converted => if now > converted then .ok false else .ok true

/-- `sysdb_sudo_check_time` (lines 39–120).  The C control flow: fetch
`sudoNotBefore`; on any getter error `goto done`, where `ENOENT` is rewritten
to `(EOK, true)` — so a rule with no `sudoNotBefore` attribute is reported
active without ever reaching the `sudoNotAfter` check.  With a non-empty
value list, `values[0]` (the first value, per the source) is parsed; a parse
failure is `EINVAL`; if `now < converted` the rule is inactive.  Otherwise
the `sudoNotAfter` half runs. -/
def sysdb_sudo_check_time (rule : SysdbAttrs) (now : Int) : Except Nat Bool :=
  match sysdb_attrs_get_string_array rule SYSDB_SUDO_CACHE_AT_NOTBEFORE with
  | .error e => if e = ENOENT then .ok true else .error e
  | .ok values =>
    match values with
    | [] => sysdb_sudo_check_notafter rule now
    | v0 :: _ =>
      match sudoTimeParse v0 with
      | none => .error EINVAL
      | some converted =>
        if now < converted then .ok false
        else sysdb_sudo_check_notafter rule now

/-- The reference instant actually used by `sysdb_sudo_filter_rules_by_time`:
a caller-supplied `now` of the sentinel `0` is replaced by the wall clock
(`time(NULL)`), which is passed in explicitly here. -/
def effectiveNow (now wallclock : Int) : Int :=
  if now = 0 then wallclock else now

/-- The rule loop of `sysdb_sudo_filter_rules_by_time` (lines 143–153): each
rule is checked independently; a rule is appended to the output exactly when
`ret == EOK && allowed`, i.e. when `sysdb_sudo_check_time` succeeds with
`true`; any other outcome (inactive, or a per-rule error such as `EINVAL`)
just skips that rule. -/
def sysdb_sudo_filter_loop (now : Int) : List SysdbAttrs → List SysdbAttrs
  | [] => []
  | r :: rest =>
    if sysdb_sudo_check_time r now = .ok true then
      r :: sysdb_sudo_filter_loop now rest
    else sysdb_sudo_filter_loop now rest

/-- `sysdb_sudo_filter_rules_by_time` (lines 122–163): substitutes the wall
clock for a zero `now`, runs the loop, and returns `EOK` with the fresh
output sequence (allocation failure aside, the function cannot fail). -/
def sysdb_sudo_filter_rules_by_time (in_rules : List SysdbAttrs)
    (now wallclock : Int) : Except Nat (List SysdbAttrs) :=
  .ok (sysdb_sudo_filter_loop (effectiveNow now wallclock) in_rules)

/-- The filter flag bits of `sysdb_get_sudo_filter` (`SYSDB_SUDO_FILTER_*`
in `db/sysdb_sudo.h`, outside src): a set of independent inclusion switches,
modelled as one Boolean per bit. -/
structure SudoFilterFlags where
  include_all : Bool
  include_dfl : Bool
  username : Bool
  uid : Bool
  groups : Bool
  ngrs : Bool
deriving DecidableEq, Repr

/-- `sysdb_get_sudo_filter` (lines 165–245): concatenates one equality clause
per enabled flag into `specific_filter`, in source order (ALL, defaults,
username, uid, groups, netgroups); the username clause requires the username
pointer to be non-NULL (`none` models NULL), the uid clause requires a
non-zero uid, the group clauses require a non-NULL group array; then wraps in
`(&(objectClass=sudoRule)...)`, adding an `(|...)` group only when
`specific_filter` is non-empty.  Allocation failure aside the function cannot
fail, so it is embedded as a pure string builder. -/
def sysdb_get_sudo_filter (username : Option String) (uid : Nat)
    (groupnames : Option (List String)) (flags : SudoFilterFlags) : String :=
  let specific_filter :=
    (if flags.include_all then "(" ++ SYSDB_SUDO_CACHE_AT_USER ++ "=ALL)" else "")
    ++ (if flags.include_dfl then "(" ++ SYSDB_NAME ++ "=defaults)" else "")
    ++ (if flags.username then
          match username with
          | some u => "(" ++ SYSDB_SUDO_CACHE_AT_USER ++ "=" ++ u ++ ")"
          | none => ""
        else "")
    ++ (if flags.uid ∧ uid ≠ 0 then
          "(" ++ SYSDB_SUDO_CACHE_AT_USER ++ "=#" ++ toString uid ++ ")"
        else "")
    ++ (if flags.groups then
          match groupnames with
          | some gs =>
            String.join (gs.map (fun g =>
              "(" ++ SYSDB_SUDO_CACHE_AT_USER ++ "=%" ++ g ++ ")"))
          | none => ""
        else "")
    ++ (if flags.ngrs then "(" ++ SYSDB_SUDO_CACHE_AT_USER ++ "=+*)" else "")
  let filter := "(&(" ++ SYSDB_OBJECTCLASS ++ "=" ++ SYSDB_SUDO_CACHE_AT_OC ++ ")"
  let filter := if specific_filter ≠ "" then filter ++ "(|" ++ specific_filter ++ ")"
                else filter
  filter ++ ")"

/-- `struct ldb_message`: an ordered sequence of named multi-valued string
elements, as returned by the backing store's search operations. -/
structure LdbMessage where
  elements : List (String × List String)
deriving DecidableEq, Repr

/-- `ldb_msg_find_attr_as_uint64(msg, name, 0)` (libdb, outside src):
first value of the named element interpreted as a decimal number, or the
default `0` when the element is missing, empty, or non-numeric. -/
def ldb_msg_find_attr_as_uint64 (msg : LdbMessage) (name : String) : Nat :=
  match msg.elements.find? (fun p => p.1 == name) with
  | none => 0
  | some p =>
    match p.2.head? with
    | none => 0
    | some v => v.toNat?.getD 0

/-- `ldb_msg_find_attr_as_string(msg, name, NULL)` (libdb, outside src):
first value of the named element, or NULL (`none`) when the element is
missing or empty. -/
def ldb_msg_find_attr_as_string (msg : LdbMessage) (name : String) : Option String :=
  match msg.elements.find? (fun p => p.1 == name) with
  | none => none
  | some p => p.2.head?

/-- The group-name conversion loop of `sysdb_get_sudo_user_info` (lines
290–299): maps `sysdb_group_dn_name` (supplied as the oracle `dnToName`)
over the raw `memberOf` values; any failure is rewritten to `ENOMEM` and
aborts the loop. -/
def sudo_convert_groups (dnToName : String → Except Nat String) :
    List String → Except Nat (List String)
  | [] => .ok []
  | g :: rest =>
    match dnToName g with
    | .error _ => .error ENOMEM
    | .ok n =>
      match sudo_convert_groups dnToName rest with
      | .error e => .error e
      | .ok ns => .ok (n :: ns)

/-- Observable outcome of `sysdb_get_sudo_user_info`: `retval` is the value
the C function returns to its caller, `ret` is the final value of the local
`ret` variable at the `done:` label, and `output` holds the out-parameters
`(*_uid, *groupnames)` when the success path wrote them (`none` groups models
the NULL group array for a user with no memberships). -/
structure UserInfoResult where
  retval : Nat
  ret : Nat
  output : Option (Nat × Option (List String))
deriving DecidableEq, Repr

/-- `sysdb_get_sudo_user_info` (lines 247–309).  `searchResult` is the
outcome of `sysdb_search_user_by_name` (outside src) for the requested
username; `dnToName` is `sysdb_group_dn_name`.  The C control flow: a failed
lookup jumps to `done:`; a zero `uidNumber` sets `ret = EIO` (errno 5) and
jumps to `done:`; a missing or empty `memberOf` element yields NULL groups;
a failed group conversion sets `ret = ENOMEM` and jumps to `done:`.  In every
case the function ends with `return EOK;` (line 308) — the computed `ret` is
never returned. -/
def sysdb_get_sudo_user_info (searchResult : Except Nat LdbMessage)
    (dnToName : String → Except Nat String) : UserInfoResult :=
  match searchResult with
  | .error e => ⟨EOK, e, none⟩
  | .ok msg =>
    let uid := ldb_msg_find_attr_as_uint64 msg SYSDB_UIDNUM
    if uid = 0 then ⟨EOK, 5, none⟩
    else
      match msg.elements.find? (fun p => p.1 == SYSDB_MEMBEROF) with
      | none => ⟨EOK, EOK, some (uid, none)⟩
      | some groups =>
        if groups.2 = [] then ⟨EOK, EOK, some (uid, none)⟩
        else
          match sudo_convert_groups dnToName groups.2 with
          | .error e => ⟨EOK, e, none⟩
          | .ok names => ⟨EOK, EOK, some (uid, some names)⟩

/-- `sysdb_sudo_purge_subdir` (lines 311–336).  `deleteRecursiveResult` is
the errno produced by `sysdb_delete_recursive` (outside src) on the rule
subtree.  Returns `(value returned, final value of the local ret)`: on a
delete failure the code logs and jumps to `done:` with `ret` holding the
error, but the function ends with `return EOK;` (line 335), so the returned
value is always `EOK`. -/
def sysdb_sudo_purge_subdir (deleteRecursiveResult : Nat) : Nat × Nat :=
  if deleteRecursiveResult ≠ EOK then (EOK, deleteRecursiveResult)
  else (EOK, EOK)

/-- The deletion loop of `sysdb_purge_sudorule_subtree` (lines 410–423):
for each matched message, read its `name` attribute; a NULL name is logged
and skipped (`continue`); otherwise `sysdb_delete_custom` (the oracle
`deleteCustom`) runs, and a non-`EOK` outcome jumps to `done:` with that
error.  Returns the final errno and the names deleted successfully, in
order. -/
def sysdb_purge_loop (deleteCustom : String → Nat) :
    List LdbMessage → Nat × List String
  | [] => (EOK, [])
  | m :: rest =>
    match ldb_msg_find_attr_as_string m SYSDB_NAME with
    | none => sysdb_purge_loop deleteCustom rest
    | some name =>
      if deleteCustom name = EOK then
        let r := sysdb_purge_loop deleteCustom rest
        (r.1, name :: r.2)
      else (deleteCustom name, [])

/-- `sysdb_purge_sudorule_subtree` (lines 372–429).  A NULL `filter` routes
to `sysdb_sudo_purge_subdir`.  Otherwise `searchResult` is the outcome of
`sysdb_search_custom` (outside src) under the rule subdirectory: an error
other than `ENOENT` is returned as-is, `ENOENT` ("no rules matched") is
rewritten to `EOK`, and a hit list enters the deletion loop.  Returns the
errno the function returns together with the names deleted successfully. -/
def sysdb_purge_sudorule_subtree (filter : Option String)
    (deleteRecursiveResult : Nat)
    (searchResult : Except Nat (List LdbMessage))
    (deleteCustom : String → Nat) : Nat × List String :=
  match filter with
  | none => ((sysdb_sudo_purge_subdir deleteRecursiveResult).1, [])
  | some _ =>
    match searchResult with
    | .error e => if e = ENOENT then (EOK, []) else (e, [])
    | .ok msgs => sysdb_purge_loop deleteCustom msgs

/-- `sysdb_attrs_add_string` (in `db/sysdb.c`, outside src; modelled from the
spec's attribute-bag description): appends `val` to the value list of the
first element named `name`, creating a new element at the end of the bag when
none exists. -/
def sysdb_attrs_add_string (attrs : SysdbAttrs) (name val : String) : SysdbAttrs :=
  ⟨go attrs.elements⟩
where
  go : List (String × List String) → List (String × List String)
    | [] => [(name, [val])]
    | p :: rest =>
      if p.1 == name then (p.1, p.2 ++ [val]) :: rest
      else p :: go rest

/-- `sysdb_save_sudorule` (lines 338–370).  The two `sysdb_attrs_add_string`
calls and `sysdb_store_custom` can each fail (with `ENOMEM` resp. a storage
errno); their outcomes are supplied as the oracles `add1`, `add2`,
`storeResult`, and a failed call is taken to leave the bag unchanged.  The C
function mutates the caller's `attrs` in place and returns early on the first
failure, so the embedding returns the errno together with the final state of
the caller's bag. -/
def sysdb_save_sudorule (rule_name : String) (attrs : SysdbAttrs)
    (add1 add2 storeResult : Nat) : Nat × SysdbAttrs :=
  if add1 ≠ EOK then (add1, attrs)
  else
    let attrs1 := sysdb_attrs_add_string attrs SYSDB_OBJECTCLASS SYSDB_SUDO_CACHE_AT_OC
    if add2 ≠ EOK then (add2, attrs1)
    else
      let attrs2 := sysdb_attrs_add_string attrs1 SYSDB_NAME rule_name
      if storeResult ≠ EOK then (storeResult, attrs2)
      else (EOK, attrs2)

/-! ## Helper lemmas -/

/-- The filter loop produces a sublist of its input (relative order kept). -/
theorem sysdb_sudo_filter_loop_sublist (now : Int) (l : List SysdbAttrs) :
    (sysdb_sudo_filter_loop now l).Sublist l := by
  induction l with
  | nil => exact List.Sublist.refl []
  | cons r rest ih =>
    rw [sysdb_sudo_filter_loop]
    by_cases h : sysdb_sudo_check_time r now = .ok true
    · rw [if_pos h]; exact List.Sublist.cons₂ r ih
    · rw [if_neg h]; exact List.Sublist.cons r ih

/-- Membership in the filter loop output: exactly the input rules whose time
check succeeds with `true`. -/
theorem mem_sysdb_sudo_filter_loop (now : Int) (l : List SysdbAttrs) (r : SysdbAttrs) :
    r ∈ sysdb_sudo_filter_loop now l ↔
      r ∈ l ∧ sysdb_sudo_check_time r now = .ok true := by
  induction l with
  | nil => simp [sysdb_sudo_filter_loop]
  | cons a rest ih =>
    rw [sysdb_sudo_filter_loop]
    by_cases h : sysdb_sudo_check_time a now = .ok true
    · rw [if_pos h]
      simp only [List.mem_cons, ih]
      constructor
      · rintro (rfl | ⟨hm, hc⟩)
        · exact ⟨Or.inl rfl, h⟩
        · exact ⟨Or.inr hm, hc⟩
      · rintro ⟨rfl | hm, hc⟩
        · exact Or.inl rfl
        · exact Or.inr ⟨hm, hc⟩
    · rw [if_neg h]
      simp only [List.mem_cons, ih]
      constructor
      · rintro ⟨hm, hc⟩
        exact ⟨Or.inr hm, hc⟩
      · rintro ⟨rfl | hm, hc⟩
        · exact absurd hc h
        · exact ⟨hm, hc⟩

/-- The purge loop under an always-succeeding delete: returns `EOK` and
deletes exactly the matched records that carry a `name`, in order. -/
theorem sysdb_purge_loop_all_ok (del : String → Nat) (msgs : List LdbMessage)
    (hok : ∀ n, del n = EOK) :
    sysdb_purge_loop del msgs
      = (EOK, msgs.filterMap (fun m => ldb_msg_find_attr_as_string m SYSDB_NAME)) := by
  induction msgs with
  | nil => rfl
  | cons m rest ih =>
    rw [sysdb_purge_loop]
    cases hname : ldb_msg_find_attr_as_string m SYSDB_NAME with
    | none => simp [List.filterMap_cons, hname, ih]
    | some n => simp [List.filterMap_cons, hname, hok n, ih]

/-- The purge loop aborts at the first failing delete, returning its errno and
having deleted only the named records before it. -/
theorem sysdb_purge_loop_abort (del : String → Nat) (pre rest : List LdbMessage)
    (bad : LdbMessage) (badname : String) (e : Nat)
    (hpre : ∀ n ∈ pre.filterMap (fun m => ldb_msg_find_attr_as_string m SYSDB_NAME),
        del n = EOK)
    (hbad : ldb_msg_find_attr_as_string bad SYSDB_NAME = some badname)
    (hfail : del badname = e) (hne : e ≠ EOK) :
    sysdb_purge_loop del (pre ++ bad :: rest)
      = (e, pre.filterMap (fun m => ldb_msg_find_attr_as_string m SYSDB_NAME)) := by
  induction pre with
  | nil =>
    rw [List.nil_append, sysdb_purge_loop]
    simp only [hbad, hfail, List.filterMap_nil]
    rw [if_neg hne]
  | cons m pre ih =>
    rw [List.cons_append, sysdb_purge_loop]
    cases hname : ldb_msg_find_attr_as_string m SYSDB_NAME with
    | none =>
      simp only [hname, List.filterMap_cons]
      exact ih (fun n hn => hpre n (by
        simp only [List.filterMap_cons, hname]
        exact hn))
    | some n =>
      have hdel : del n = EOK := hpre n (by
        simp only [List.filterMap_cons, hname]
        exact List.mem_cons_self n _)
      have hrec := ih (fun n' hn' => hpre n' (by
        simp only [List.filterMap_cons, hname]
        exact List.mem_cons_of_mem n hn'))
      simp only [hname, List.filterMap_cons]
      rw [if_pos hdel, hrec]

/-! ## Claims -/

/-- C1: the claim says that for a rule with `notBefore` absent (or empty) and
a single parseable `notAfter = T`, `isActive(rule, now)` is true iff
`now ≤ T`, in particular false when `now > T`.  The code violates this: when
`sudoNotBefore` is absent, the getter's `ENOENT` takes the shared `goto done`
path, which rewrites `ENOENT` to "active" before the `sudoNotAfter` check is
ever reached.  Concretely, a rule with only `notAfter = 2010-01-01` still
evaluates active at `now = 2020-01-01`. -/
theorem check_time_notafter_skipped_when_notbefore_absent :
    sysdb_sudo_check_time ⟨[(SYSDB_SUDO_CACHE_AT_NOTAFTER, ["20100101000000Z"])]⟩
        1577836800 = .ok true
    ∧ sysdb_sudo_check_notafter ⟨[(SYSDB_SUDO_CACHE_AT_NOTAFTER, ["20100101000000Z"])]⟩
        1577836800 = .ok false
    ∧ sudoTimeParse "20100101000000Z" = some 1262304000
    ∧ (1262304000 : Int) < 1577836800 :=
  ⟨rfl, rfl, rfl, by decide⟩

/-- C2: the claim says a multi-valued `notBefore` is evaluated against the
earliest (minimum) value.  The code parses `values[0]`, the first value in
attribute order, contradicting its own comment ("the *earliest* is used"):
with values `[2030-01-01, 2010-01-01]` and `now = 2020-01-01` the rule
evaluates inactive, although the same rule with `notBefore = 2010-01-01`
(the earliest value) evaluates active. -/
theorem check_time_notbefore_takes_first_value :
    sysdb_sudo_check_time ⟨[(SYSDB_SUDO_CACHE_AT_NOTBEFORE,
        ["20300101000000Z", "20100101000000Z"])]⟩ 1577836800 = .ok false
    ∧ sysdb_sudo_check_time ⟨[(SYSDB_SUDO_CACHE_AT_NOTBEFORE, ["20100101000000Z"])]⟩
        1577836800 = .ok true
    ∧ sudoTimeParse "20100101000000Z" = some 1262304000
    ∧ sudoTimeParse "20300101000000Z" = some 1893456000
    ∧ (1262304000 : Int) ≤ 1577836800 ∧ (1577836800 : Int) < 1893456000 :=
  ⟨rfl, rfl, rfl, rfl, by decide, by decide⟩

/-- C3: the claim says `sysdb_get_sudo_user_info` fails with a lookup error
for an unknown username.  The code computes the error into the local `ret`
but ends with `return EOK;`, so a failed lookup is reported to the caller as
success (with the out-parameters never written). -/
theorem get_sudo_user_info_returns_eok_on_failed_lookup :
    sysdb_get_sudo_user_info (.error ENOENT) (fun _ => .ok "") = ⟨EOK, ENOENT, none⟩
    ∧ ENOENT ≠ EOK :=
  ⟨rfl, by decide⟩

/-- C4: the claim says a failed recursive subtree delete is propagated by
`purgeAll` (`sysdb_purge_sudorule_subtree` with a NULL filter, which routes
to `sysdb_sudo_purge_subdir`).  The code sets `ret` to the delete error and
jumps to `done:`, but `sysdb_sudo_purge_subdir` ends with `return EOK;`, so
the caller sees success even when `sysdb_delete_recursive` failed (here with
errno 5, `EIO`). -/
theorem purge_subtree_swallows_recursive_delete_failure :
    sysdb_purge_sudorule_subtree none 5 (.ok []) (fun _ => EOK) = (EOK, [])
    ∧ sysdb_sudo_purge_subdir 5 = (EOK, 5)
    ∧ (5 : Nat) ≠ EOK :=
  ⟨rfl, rfl, by decide⟩

/-- C5: `sysdb_sudo_filter_rules_by_time` always returns success, its output
is a sublist of the input (each rule evaluated independently, relative order
preserved), and a rule is in the output exactly when its time check succeeds
with `true` — so a rule whose timestamps fail to parse (check result
`EINVAL`, not `.ok true`) is excluded without aborting the batch. -/
theorem filter_rules_by_time_keeps_active_rules_in_order
    (rules : List SysdbAttrs) (now wallclock : Int) :
    ∃ out, sysdb_sudo_filter_rules_by_time rules now wallclock = .ok out
      ∧ out.Sublist rules
      ∧ ∀ r, r ∈ out ↔ (r ∈ rules ∧
          sysdb_sudo_check_time r (effectiveNow now wallclock) = .ok true) :=
  ⟨sysdb_sudo_filter_loop (effectiveNow now wallclock) rules, rfl,
    sysdb_sudo_filter_loop_sublist _ _,
    fun r => mem_sysdb_sudo_filter_loop _ _ r⟩

/-- C6: a rule whose `sudoNotAfter` holds several values behaves exactly as
the same rule with `sudoNotAfter` replaced by its last value in attribute
order: `sysdb_sudo_check_time` agrees on any pair of rules that share their
`sudoNotBefore` answer and whose `sudoNotAfter` lists are `vs` (with last
element `v`) and `[v]` respectively. -/
theorem check_time_notafter_uses_last_value
    (r r' : SysdbAttrs) (now : Int) (vs : List String) (v : String)
    (hA : sysdb_attrs_get_string_array r SYSDB_SUDO_CACHE_AT_NOTAFTER = .ok vs)
    (hlast : vs.getLast? = some v)
    (hB : sysdb_attrs_get_string_array r' SYSDB_SUDO_CACHE_AT_NOTBEFORE
          = sysdb_attrs_get_string_array r SYSDB_SUDO_CACHE_AT_NOTBEFORE)
    (hA' : sysdb_attrs_get_string_array r' SYSDB_SUDO_CACHE_AT_NOTAFTER = .ok [v]) :
    sysdb_sudo_check_time r now = sysdb_sudo_check_time r' now := by
  have hafter : sysdb_sudo_check_notafter r now = sysdb_sudo_check_notafter r' now := by
    rw [sysdb_sudo_check_notafter, sysdb_sudo_check_notafter, hA, hA']
    dsimp only
    rw [hlast]
    rfl
  rw [sysdb_sudo_check_time, sysdb_sudo_check_time, hB]
  cases hnb : sysdb_attrs_get_string_array r SYSDB_SUDO_CACHE_AT_NOTBEFORE with
  | error e => rfl
  | ok values =>
    dsimp only
    cases values with
    | nil => exact hafter
    | cons v0 tl =>
      dsimp only
      cases sudoTimeParse v0 with
      | none => rfl
      | some converted =>
        dsimp only
        by_cases hlt : now < converted
        · rw [if_pos hlt, if_pos hlt]
        · rw [if_neg hlt, if_neg hlt, hafter]

/-- Witness for C6 at a concrete rule (with a `notBefore` of 1980-01-01 so
that the `notAfter` half is actually reached): `sudoNotAfter` values
`[2030-01-01, 2010-01-01]` behave at `now = 2020-01-01` exactly like the
singleton `[2010-01-01]` — both inactive, since the last value has passed. -/
theorem check_time_notafter_uses_last_value_witness :
    sysdb_attrs_get_string_array
        ⟨[(SYSDB_SUDO_CACHE_AT_NOTBEFORE, ["19800101000000Z"]),
          (SYSDB_SUDO_CACHE_AT_NOTAFTER, ["20300101000000Z", "20100101000000Z"])]⟩
        SYSDB_SUDO_CACHE_AT_NOTAFTER = .ok ["20300101000000Z", "20100101000000Z"]
    ∧ (["20300101000000Z", "20100101000000Z"] : List String).getLast?
        = some "20100101000000Z"
    ∧ sysdb_sudo_check_time
        ⟨[(SYSDB_SUDO_CACHE_AT_NOTBEFORE, ["19800101000000Z"]),
          (SYSDB_SUDO_CACHE_AT_NOTAFTER, ["20300101000000Z", "20100101000000Z"])]⟩
        1577836800
      = sysdb_sudo_check_time
        ⟨[(SYSDB_SUDO_CACHE_AT_NOTBEFORE, ["19800101000000Z"]),
          (SYSDB_SUDO_CACHE_AT_NOTAFTER, ["20100101000000Z"])]⟩ 1577836800
    ∧ sysdb_sudo_check_time
        ⟨[(SYSDB_SUDO_CACHE_AT_NOTBEFORE, ["19800101000000Z"]),
          (SYSDB_SUDO_CACHE_AT_NOTAFTER, ["20300101000000Z", "20100101000000Z"])]⟩
        1577836800 = .ok false :=
  ⟨rfl, rfl,
    check_time_notafter_uses_last_value
      ⟨[(SYSDB_SUDO_CACHE_AT_NOTBEFORE, ["19800101000000Z"]),
        (SYSDB_SUDO_CACHE_AT_NOTAFTER, ["20300101000000Z", "20100101000000Z"])]⟩
      ⟨[(SYSDB_SUDO_CACHE_AT_NOTBEFORE, ["19800101000000Z"]),
        (SYSDB_SUDO_CACHE_AT_NOTAFTER, ["20100101000000Z"])]⟩
      1577836800 ["20300101000000Z", "20100101000000Z"] "20100101000000Z"
      rfl rfl rfl rfl,
    rfl⟩

/-- C7 counterexample: the claim says that for an identity with an empty
username string no username clause appears in the filter.  The code only
checks the username pointer for NULL, so with the username flag set and
`username = some ""` the produced filter does contain the (empty-valued)
username clause `(sudoUser=)`. -/
theorem get_sudo_filter_empty_username_emits_clause :
    sysdb_get_sudo_filter (some "") 0 none ⟨false, false, true, false, false, false⟩
      = "(&(objectClass=sudoRule)(|(sudoUser=)))"
    ∧ ∃ s t : List Char,
        s ++ ("(" ++ SYSDB_SUDO_CACHE_AT_USER ++ "=" ++ "" ++ ")").data ++ t
          = (sysdb_get_sudo_filter (some "") 0 none
              ⟨false, false, true, false, false, false⟩).data :=
  ⟨rfl, "(&(objectClass=sudoRule)(|".data, "))".data, by decide⟩

/-- C7 (amended): the username clause is emitted only when the username flag
is set and the supplied username is non-NULL; for an identity with a NULL
(absent) username the filter is identical to the one built with the
username flag cleared, i.e. no username clause appears. -/
theorem get_sudo_filter_null_username_no_clause
    (username : Option String) (uid : Nat) (groupnames : Option (List String))
    (a b c d e : Bool) (h : username = none) :
    sysdb_get_sudo_filter username uid groupnames ⟨a, b, true, c, d, e⟩
      = sysdb_get_sudo_filter username uid groupnames ⟨a, b, false, c, d, e⟩ := by
  subst h
  simp [sysdb_get_sudo_filter]

/-- Witness for the amended C7: with a NULL username, flag set and flag
cleared produce the same filter. -/
theorem get_sudo_filter_null_username_no_clause_witness :
    sysdb_get_sudo_filter none 0 none ⟨true, false, true, false, false, false⟩
      = sysdb_get_sudo_filter none 0 none ⟨true, false, false, false, false, false⟩ :=
  get_sudo_filter_null_username_no_clause none 0 none true false false false false rfl

/-- C8: with a non-NULL predicate and every delete succeeding, the purge
returns `EOK` and deletes exactly the matched records that carry a `name`
(a nameless record is skipped without blocking the rest); a search that
matches nothing (`ENOENT`) is success with zero deletions. -/
theorem purge_subtree_skips_nameless_and_accepts_no_matches
    (f : String) (dr : Nat) (msgs : List LdbMessage) (del : String → Nat)
    (hok : ∀ n, del n = EOK) :
    sysdb_purge_sudorule_subtree (some f) dr (.ok msgs) del
      = (EOK, msgs.filterMap (fun m => ldb_msg_find_attr_as_string m SYSDB_NAME))
    ∧ sysdb_purge_sudorule_subtree (some f) dr (.error ENOENT) del = (EOK, []) :=
  ⟨sysdb_purge_loop_all_ok del msgs hok, rfl⟩

/-- Witness for C8: three matched records, the first without a `name`; both
named records are deleted and the call succeeds. -/
theorem purge_subtree_skips_nameless_and_accepts_no_matches_witness :
    sysdb_purge_sudorule_subtree (some "(cn=x)") 0
        (.ok [⟨[("cn", ["x"])]⟩, ⟨[("name", ["r1"])]⟩, ⟨[("name", ["r2"])]⟩])
        (fun _ => EOK)
      = (EOK, ["r1", "r2"])
    ∧ sysdb_purge_sudorule_subtree (some "(cn=x)") 0 (.error ENOENT) (fun _ => EOK)
      = (EOK, []) :=
  ⟨(purge_subtree_skips_nameless_and_accepts_no_matches "(cn=x)" 0
      [⟨[("cn", ["x"])]⟩, ⟨[("name", ["r1"])]⟩, ⟨[("name", ["r2"])]⟩]
      (fun _ => EOK) (fun _ => rfl)).1.trans (by decide),
   (purge_subtree_skips_nameless_and_accepts_no_matches "(cn=x)" 0 []
      (fun _ => EOK) (fun _ => rfl)).2⟩

/-- C9: with a non-NULL predicate, if the delete of one named matched record
fails, the purge aborts immediately with that errno, having deleted only the
named records preceding it (the records from the failing one on are left
undeleted). -/
theorem purge_subtree_aborts_on_delete_failure
    (f : String) (dr : Nat) (pre rest : List LdbMessage) (bad : LdbMessage)
    (del : String → Nat) (badname : String) (e : Nat)
    (hpre : ∀ n ∈ pre.filterMap (fun m => ldb_msg_find_attr_as_string m SYSDB_NAME),
        del n = EOK)
    (hbad : ldb_msg_find_attr_as_string bad SYSDB_NAME = some badname)
    (hfail : del badname = e) (hne : e ≠ EOK) :
    sysdb_purge_sudorule_subtree (some f) dr (.ok (pre ++ bad :: rest)) del
      = (e, pre.filterMap (fun m => ldb_msg_find_attr_as_string m SYSDB_NAME)) :=
  sysdb_purge_loop_abort del pre rest bad badname e hpre hbad hfail hne

/-- Witness for C9: deleting `b` fails with errno 22 after `a` was deleted;
the call returns 22 and `c` is never deleted. -/
theorem purge_subtree_aborts_on_delete_failure_witness :
    sysdb_purge_sudorule_subtree (some "(cn=x)") 0
        (.ok [⟨[("name", ["a"])]⟩, ⟨[("name", ["b"])]⟩, ⟨[("name", ["c"])]⟩])
        (fun n => if n == "b" then 22 else EOK)
      = (22, ["a"]) :=
  (purge_subtree_aborts_on_delete_failure "(cn=x)" 0
      [⟨[("name", ["a"])]⟩] [⟨[("name", ["c"])]⟩] ⟨[("name", ["b"])]⟩
      (fun n => if n == "b" then 22 else EOK) "b" 22
      (by decide) rfl rfl (by decide)).trans (by decide)

/-- C10: `sysdb_save_sudorule` appends the `objectClass` marker and the
`name` attribute to the caller's bag before the store put; when the second
append fails the error is returned with the `objectClass` append already
applied to the caller's bag, and when the put fails the error is returned
with both appends applied — the input bag is mutated on the failure paths. -/
theorem save_sudorule_appends_attrs_before_store
    (rule_name : String) (attrs : SysdbAttrs) (add2 st : Nat) :
    (add2 ≠ EOK → sysdb_save_sudorule rule_name attrs EOK add2 st
        = (add2, sysdb_attrs_add_string attrs SYSDB_OBJECTCLASS SYSDB_SUDO_CACHE_AT_OC))
    ∧ (st ≠ EOK → sysdb_save_sudorule rule_name attrs EOK EOK st
        = (st, sysdb_attrs_add_string
            (sysdb_attrs_add_string attrs SYSDB_OBJECTCLASS SYSDB_SUDO_CACHE_AT_OC)
            SYSDB_NAME rule_name)) := by
  constructor
  · intro h
    rw [sysdb_save_sudorule, if_neg (by simp [EOK]), if_pos h]
  · intro h
    rw [sysdb_save_sudorule, if_neg (by simp [EOK]), if_neg (by simp [EOK]),
      if_pos h]

/-- Witness for C10: a failed store (errno 5) returns that errno with both
attributes already appended to the (initially empty) bag. -/
theorem save_sudorule_appends_attrs_before_store_witness :
    sysdb_save_sudorule "rule1" ⟨[]⟩ EOK EOK 5
      = (5, sysdb_attrs_add_string
          (sysdb_attrs_add_string ⟨[]⟩ SYSDB_OBJECTCLASS SYSDB_SUDO_CACHE_AT_OC)
          SYSDB_NAME "rule1") :=
  (save_sudorule_appends_attrs_before_store "rule1" ⟨[]⟩ EOK 5).2 (by decide)

end SysdbSudo
